import Mathlib

/-!
Verification of the well-pump controller
(src/Controle_Poco_Com_Autocalibracao_e_Filter.ino).

The embedding below translates the sketch's logic into Lean:
machine floats become rationals, `millis()` timestamps become naturals,
digital pin levels become booleans (`false` = LOW = active for the
active-low buttons), and the global mutable state becomes explicit
state records threaded through step functions.
-/

namespace ControlePoco

/-- The six well states declared by `enum EstadoPoco` in the sketch,
in source order. -/
inductive EstadoPoco where
  | POCO_CHEIO
  | POCO_DESCENDO
  | POCO_VAZIO
  | POCO_ENCHENDO
  | SENSOR_FALHA
  | FALHA_ELETRICA
deriving DecidableEq, Fintype

open EstadoPoco

/-- The pure transition core of `atualizarEstado` (lines 186-261):
the sensor-fault precondition followed by the `switch` on the current
state.  Inputs are the two wetness booleans computed from the filtered
voltages; logging is dropped, `estadoAnterior` bookkeeping is handled
by the loop model below. -/
def atualizarEstado (estado : EstadoPoco) (eminMolhado emaxMolhado : Bool) :
    EstadoPoco :=
  if !eminMolhado && emaxMolhado then
    SENSOR_FALHA
  else
    match estado with
    | POCO_VAZIO =>
        if eminMolhado && emaxMolhado then POCO_CHEIO
        else if eminMolhado && !emaxMolhado then POCO_ENCHENDO
        else POCO_VAZIO
    | POCO_ENCHENDO =>
        if eminMolhado && emaxMolhado then POCO_CHEIO
        else if !eminMolhado && !emaxMolhado then POCO_VAZIO
        else POCO_ENCHENDO
    | POCO_CHEIO =>
        if eminMolhado && !emaxMolhado then POCO_DESCENDO
        else if !eminMolhado && !emaxMolhado then POCO_VAZIO
        else POCO_CHEIO
    | POCO_DESCENDO =>
        if !eminMolhado && !emaxMolhado then POCO_VAZIO
        else if eminMolhado && emaxMolhado then POCO_CHEIO
        else POCO_DESCENDO
    | SENSOR_FALHA =>
        if eminMolhado || !emaxMolhado then POCO_VAZIO
        else SENSOR_FALHA
    | FALHA_ELETRICA => FALHA_ELETRICA

/-- Pump policy `controlarBomba` (lines 271-289) as a function from the current
state and the current pump flag (`bombaLigada`) to the new pump flag:
fault states force the pump off before the `switch`; `ligarBomba` and
`desligarBomba` only change the flag (their pin writes and logging are
idempotent guards). -/
def controlarBomba (estado : EstadoPoco) (bombaLigada : Bool) : Bool :=
  if estado = FALHA_ELETRICA ∨ estado = SENSOR_FALHA then
    false
  else
    match estado with
    | POCO_CHEIO => true
    | POCO_DESCENDO => true
    | POCO_VAZIO => false
    | POCO_ENCHENDO => false
    | _ => bombaLigada

/-- Transition table exactly as written in the specification (section
4.3), for comparison with the implementation `atualizarEstado`.
Modelled from the spec: rows of the table, every unlisted pair holds
the current state; the `(F,T)` input is outside its domain of
comparison because the fault precondition claims it first. -/
def tabelaSpec (estado : EstadoPoco) (minWet maxWet : Bool) : EstadoPoco :=
  match estado, minWet, maxWet with
  | POCO_VAZIO, true, true => POCO_CHEIO
  | POCO_VAZIO, true, false => POCO_ENCHENDO
  | POCO_ENCHENDO, true, true => POCO_CHEIO
  | POCO_ENCHENDO, false, false => POCO_VAZIO
  | POCO_CHEIO, true, false => POCO_DESCENDO
  | POCO_CHEIO, false, false => POCO_VAZIO
  | POCO_DESCENDO, false, false => POCO_VAZIO
  | POCO_DESCENDO, true, true => POCO_CHEIO
  | SENSOR_FALHA, mi, ma => if mi || !ma then POCO_VAZIO else SENSOR_FALHA
  | s, _, _ => s

/-- Iterated state machine: fold one step per `(minWet, maxWet)` input
pair, as the control loop does once per cadence tick. -/
def executarMaquina (inicial : EstadoPoco) (entradas : List (Bool × Bool)) :
    EstadoPoco :=
  entradas.foldl (fun s e => atualizarEstado s e.1 e.2) inicial

/-- Claim C1: after a control-loop evaluation cycle (state update then
pump decision), the pump is off whenever the updated state is
SENSOR_FALHA or FALHA_ELETRICA, regardless of the prior pump flag, and
otherwise the pump is on exactly for POCO_CHEIO and POCO_DESCENDO and
off for POCO_VAZIO and POCO_ENCHENDO. -/
theorem controlarBomba_seguro (s : EstadoPoco) (mi ma b : Bool) :
    ((atualizarEstado s mi ma = SENSOR_FALHA ∨
      atualizarEstado s mi ma = FALHA_ELETRICA) →
        controlarBomba (atualizarEstado s mi ma) b = false) ∧
    (controlarBomba (atualizarEstado s mi ma) b = true ↔
      (atualizarEstado s mi ma = POCO_CHEIO ∨
       atualizarEstado s mi ma = POCO_DESCENDO)) := by
  revert s mi ma b
  decide

/-- Witness for C1: from POCO_CHEIO, input (F,T) yields SENSOR_FALHA
and the pump is forced off even though it was previously on. -/
theorem controlarBomba_seguro_witness :
    controlarBomba (atualizarEstado POCO_CHEIO false true) true = false :=
  (controlarBomba_seguro POCO_CHEIO false true true).1 (by decide)

/-- Claim C2: for every current state, input (minWet = false,
maxWet = true) yields SENSOR_FALHA: the fault precondition dominates
the transition table. -/
theorem falhaSensor_domina (s : EstadoPoco) :
    atualizarEstado s false true = SENSOR_FALHA := by
  cases s <;> rfl

/-- Claim C3: away from the fault input (F,T), one step of the
implementation agrees exactly with the specification transition table,
including SENSOR_FALHA recovery to POCO_VAZIO (not POCO_CHEIO) on
(T,T) and holding on every unlisted pair. -/
theorem atualizarEstado_igual_tabela (s : EstadoPoco) (mi ma : Bool)
    (h : ¬(mi = false ∧ ma = true)) :
    atualizarEstado s mi ma = tabelaSpec s mi ma := by
  revert h
  revert s mi ma
  decide

/-- Witness for C3: SENSOR_FALHA with input (T,T) recovers to
POCO_VAZIO as the table says. -/
theorem atualizarEstado_igual_tabela_witness :
    atualizarEstado SENSOR_FALHA true true = tabelaSpec SENSOR_FALHA true true :=
  atualizarEstado_igual_tabela SENSOR_FALHA true true (by decide)

/-- Single-step invariant: no input ever produces FALHA_ELETRICA from
a state other than FALHA_ELETRICA itself. -/
theorem atualizarEstado_nao_produz_falhaEletrica
    (s : EstadoPoco) (mi ma : Bool) (h : s ≠ FALHA_ELETRICA) :
    atualizarEstado s mi ma ≠ FALHA_ELETRICA := by
  revert h
  revert s mi ma
  decide

/-- Claim C6: starting from the initial state POCO_VAZIO, no sequence
of inputs ever reaches FALHA_ELETRICA: the machine has no producing
transition for it. -/
theorem falhaEletrica_inalcancavel (entradas : List (Bool × Bool)) :
    executarMaquina POCO_VAZIO entradas ≠ FALHA_ELETRICA := by
  have geral : ∀ (l : List (Bool × Bool)) (s : EstadoPoco),
      s ≠ FALHA_ELETRICA → executarMaquina s l ≠ FALHA_ELETRICA := by
    intro l
    induction l with
    | nil => intro s hs; simpa [executarMaquina] using hs
    | cons e rest ih =>
        intro s hs
        simpa [executarMaquina] using
          ih (atualizarEstado s e.1 e.2)
            (atualizarEstado_nao_produz_falhaEletrica s e.1 e.2 hs)
  exact geral entradas POCO_VAZIO (by decide)

/-- Smoothing coefficient of the exponential filter (`const float
alpha = 0.2`), as an exact rational. -/
def alpha : ℚ := 1 / 5

/-- Validity floor of the calibration guard (`0.1f`). -/
def pisoValidez : ℚ := 1 / 10

/-- Wet threshold `LIMITE_MOLHADO = 4.5` (a filtered voltage at or
below it classifies the channel as wet). -/
def LIMITE_MOLHADO : ℚ := 9 / 2

/-- Gain update of `autoCalibrar` (lines 140-151), in exact
arithmetic: given the prior gains and the per-channel averaged
measurements, compute the midpoint target and recompute each gain
whose measurement passes the validity floor, keeping the other
unchanged.  The 2 s settle wait, the 8-sample averaging loop and the
reporting are outside this pure core. -/
def autoCalibrar (ganhoMin ganhoMax vmin vmax : ℚ) : ℚ × ℚ :=
  let alvo := (vmin + vmax) / 2
  (if vmin > pisoValidez then alvo / vmin else ganhoMin,
   if vmax > pisoValidez then alvo / vmax else ganhoMax)

/-- One step of the exponential filter in `lerFiltradoComGanho`
(lines 126-130): `filtro = alpha * v + (1 - alpha) * filtro`. -/
def filtroExp (v filtro : ℚ) : ℚ :=
  alpha * v + (1 - alpha) * filtro

/-- The filter iterated n times on a constant input v from initial
state x. -/
def filtroIter (x v : ℚ) : Nat → ℚ
  | 0 => x
  | n + 1 => filtroExp v (filtroIter x v n)

/-- Gains after a sequence of calibrations, starting from the declared
initial gains `ganhoMin = ganhoMax = 1.00` (lines 75-76), each
calibration supplying its pair of averaged measurements. -/
def ganhosAposCalibracoes (medidas : List (ℚ × ℚ)) : ℚ × ℚ :=
  medidas.foldl (fun g m => autoCalibrar g.1 g.2 m.1 m.2) (1, 1)

/-- Claim C4: each channel's gain becomes midpoint/measured exactly
when that channel's measurement exceeds 0.1 and is otherwise left
equal to its prior value; when both measurements are equal and above
the floor, both resulting gains are 1. -/
theorem autoCalibrar_canais_independentes (g1 g2 vmin vmax : ℚ) :
    ((vmin > pisoValidez →
        (autoCalibrar g1 g2 vmin vmax).1 = ((vmin + vmax) / 2) / vmin) ∧
     (¬ vmin > pisoValidez → (autoCalibrar g1 g2 vmin vmax).1 = g1)) ∧
    ((vmax > pisoValidez →
        (autoCalibrar g1 g2 vmin vmax).2 = ((vmin + vmax) / 2) / vmax) ∧
     (¬ vmax > pisoValidez → (autoCalibrar g1 g2 vmin vmax).2 = g2)) ∧
    (vmin = vmax → vmin > pisoValidez →
        autoCalibrar g1 g2 vmin vmax = (1, 1)) := by
  refine ⟨⟨?_, ?_⟩, ⟨?_, ?_⟩, ?_⟩
  · intro h; simp [autoCalibrar, h]
  · intro h; simp [autoCalibrar, h]
  · intro h; simp [autoCalibrar, h]
  · intro h; simp [autoCalibrar, h]
  · intro hEq hPos
    have hne : vmin ≠ 0 := by
      have : (0 : ℚ) < vmin := lt_trans (by norm_num [pisoValidez]) hPos
      exact ne_of_gt this
    subst hEq
    simp only [autoCalibrar, if_pos hPos]
    have : (vmin + vmin) / 2 / vmin = 1 := by field_simp
    rw [this]

/-- Witness for C4: prior gains (2, 3) with equal measurements
vmin = vmax = 1 produce gains (1, 1). -/
theorem autoCalibrar_canais_independentes_witness :
    autoCalibrar 2 3 1 1 = (1, 1) :=
  (autoCalibrar_canais_independentes 2 3 1 1).2.2 rfl (by norm_num [pisoValidez])

/-- One calibration preserves strict positivity of both gains when the
measurements are non-negative. -/
theorem autoCalibrar_preserva_positividade
    (g1 g2 vmin vmax : ℚ) (h1 : 0 < g1) (h2 : 0 < g2)
    (hmin : 0 ≤ vmin) (hmax : 0 ≤ vmax) :
    0 < (autoCalibrar g1 g2 vmin vmax).1 ∧
    0 < (autoCalibrar g1 g2 vmin vmax).2 := by
  have floorPos : (0 : ℚ) < pisoValidez := by norm_num [pisoValidez]
  constructor
  · by_cases h : vmin > pisoValidez
    · have hv : (0 : ℚ) < vmin := lt_trans floorPos h
      have halvo : (0 : ℚ) < (vmin + vmax) / 2 := by positivity
      simpa [autoCalibrar, h] using div_pos halvo hv
    · simpa [autoCalibrar, h] using h1
  · by_cases h : vmax > pisoValidez
    · have hv : (0 : ℚ) < vmax := lt_trans floorPos h
      have halvo : (0 : ℚ) < (vmin + vmax) / 2 := by positivity
      simpa [autoCalibrar, h] using div_pos halvo hv
    · simpa [autoCalibrar, h] using h2

/-- Claim C7: starting from the initial gains 1.0, after any sequence
of calibrations whose averaged measurements are non-negative, both
gains are strictly positive. -/
theorem ganhos_sempre_positivos (medidas : List (ℚ × ℚ))
    (h : ∀ m ∈ medidas, 0 ≤ m.1 ∧ 0 ≤ m.2) :
    0 < (ganhosAposCalibracoes medidas).1 ∧
    0 < (ganhosAposCalibracoes medidas).2 := by
  have geral : ∀ (l : List (ℚ × ℚ)) (g : ℚ × ℚ),
      (∀ m ∈ l, 0 ≤ m.1 ∧ 0 ≤ m.2) → 0 < g.1 → 0 < g.2 →
      0 < (l.foldl (fun g m => autoCalibrar g.1 g.2 m.1 m.2) g).1 ∧
      0 < (l.foldl (fun g m => autoCalibrar g.1 g.2 m.1 m.2) g).2 := by
    intro l
    induction l with
    | nil => intro g _ hg1 hg2; exact ⟨hg1, hg2⟩
    | cons m rest ih =>
        intro g hl hg1 hg2
        have hm := hl m (List.mem_cons_self m rest)
        have step :=
          autoCalibrar_preserva_positividade g.1 g.2 m.1 m.2 hg1 hg2 hm.1 hm.2
        simpa [List.foldl_cons] using
          ih (autoCalibrar g.1 g.2 m.1 m.2)
            (fun x hx => hl x (List.mem_cons_of_mem m hx)) step.1 step.2
  exact geral medidas (1, 1) h (by norm_num) (by norm_num)

/-- Witness for C7: two calibrations, one with a dead low channel,
still leave both gains positive. -/
theorem ganhos_sempre_positivos_witness :
    0 < (ganhosAposCalibracoes [(3, 5), (0, 2)]).1 ∧
    0 < (ganhosAposCalibracoes [(3, 5), (0, 2)]).2 :=
  ganhos_sempre_positivos [(3, 5), (0, 2)] (by norm_num)

/-- Claim C8: iterating the filter on a constant input v never
overshoots and is monotone toward v from either side; moreover the
distance to v contracts by the exact factor 1 - alpha each step, which
is the monotone convergence toward v. -/
theorem filtroExp_converge_monotono (x v : ℚ) (n : ℕ) :
    (x ≤ v → filtroIter x v n ≤ filtroIter x v (n + 1) ∧
             filtroIter x v n ≤ v) ∧
    (v ≤ x → filtroIter x v (n + 1) ≤ filtroIter x v n ∧
             v ≤ filtroIter x v n) ∧
    (v - filtroIter x v (n + 1) = (1 - alpha) * (v - filtroIter x v n)) := by
  have cotaSup : ∀ m, x ≤ v → filtroIter x v m ≤ v := by
    intro m hx
    induction m with
    | zero => exact hx
    | succ k ih =>
        show filtroExp v (filtroIter x v k) ≤ v
        unfold filtroExp alpha
        linarith
  have cotaInf : ∀ m, v ≤ x → v ≤ filtroIter x v m := by
    intro m hx
    induction m with
    | zero => exact hx
    | succ k ih =>
        show v ≤ filtroExp v (filtroIter x v k)
        unfold filtroExp alpha
        linarith
  refine ⟨fun hx => ⟨?_, cotaSup n hx⟩, fun hv => ⟨?_, cotaInf n hv⟩, ?_⟩
  · have h := cotaSup n hx
    show filtroIter x v n ≤ filtroExp v (filtroIter x v n)
    unfold filtroExp alpha
    linarith
  · have h := cotaInf n hv
    show filtroExp v (filtroIter x v n) ≤ filtroIter x v n
    unfold filtroExp alpha
    linarith
  · show v - filtroExp v (filtroIter x v n) = (1 - alpha) * (v - filtroIter x v n)
    unfold filtroExp
    ring

/-- Witness for C8: from state 0 under constant input 5, the second
iterate lies above the first and below 5. -/
theorem filtroExp_converge_monotono_witness :
    filtroIter 0 5 1 ≤ filtroIter 0 5 2 ∧ filtroIter 0 5 1 ≤ 5 :=
  (filtroExp_converge_monotono 0 5 1).1 (by norm_num)

/-- Debounce window `tempoDebounce = 50` (line 59). -/
def tempoDebounce : Nat := 50

/-- The three globals of one debounced button: `estadoBotaoEstavel`,
`ultimoEstadoLido`, `ultimoTempoTroca` (lines 56-58; the calibration
button has an identical independent triple). -/
structure BotaoState where
  estavel : Bool
  lido : Bool
  troca : Nat
deriving DecidableEq

/-- One call of `verificarBotao` (lines 294-308): a raw-level change
re-arms `ultimoTempoTroca` and records the new raw level; then, when
the last change is older than the debounce window and the raw level
differs from the stable one, the stable level is committed and the
call reports a change. -/
def verificarBotao (st : BotaoState) (leituraAtual : Bool) (agora : Nat) :
    BotaoState × Bool :=
  let troca1 := if leituraAtual ≠ st.lido then agora else st.troca
  let lido1 := if leituraAtual ≠ st.lido then leituraAtual else st.lido
  if agora - troca1 > tempoDebounce ∧ leituraAtual ≠ st.estavel then
    (⟨leituraAtual, lido1, troca1⟩, true)
  else
    (⟨st.estavel, lido1, troca1⟩, false)

/-- A sequence of `verificarBotao` calls on a list of
(raw level, timestamp) polls, collecting the `changed` flags. -/
def executarBotao (st : BotaoState) : List (Bool × Nat) → BotaoState × List Bool
  | [] => (st, [])
  | (raw, t) :: rest =>
      let passo := verificarBotao st raw t
      let resto := executarBotao passo.1 rest
      (resto.1, passo.2 :: resto.2)

/-- A poll trace keeps toggling inside the debounce window: at every
poll, either the raw level differs from the last-read level (a fresh
toggle, which re-arms the timestamp) or the poll happens within the
window of the last recorded change. -/
def togglesRapidos (st : BotaoState) : List (Bool × Nat) → Bool
  | [] => true
  | (raw, t) :: rest =>
      ((raw != st.lido) || decide (t - st.troca ≤ tempoDebounce)) &&
      togglesRapidos (verificarBotao st raw t).1 rest

/-- A poll that is a fresh toggle or falls inside the window never
commits and leaves the stable level untouched. -/
theorem verificarBotao_sem_commit (st : BotaoState) (raw : Bool) (t : Nat)
    (h : ((raw != st.lido) || decide (t - st.troca ≤ tempoDebounce)) = true) :
    (verificarBotao st raw t).2 = false ∧
    (verificarBotao st raw t).1.estavel = st.estavel := by
  by_cases hx : raw = st.lido
  · have hw : t - st.troca ≤ tempoDebounce := by
      simpa [hx] using h
    simp [verificarBotao, hx, Nat.not_lt.mpr hw]
  · simp [verificarBotao, hx, Nat.sub_self]

/-- Under within-window toggling the whole run commits nothing. -/
theorem executarBotao_togglesRapidos (polls : List (Bool × Nat))
    (st : BotaoState) (h : togglesRapidos st polls = true) :
    (executarBotao st polls).1.estavel = st.estavel ∧
    (executarBotao st polls).2.count true = 0 := by
  induction polls generalizing st with
  | nil => simp [executarBotao]
  | cons p rest ih =>
      obtain ⟨raw, t⟩ := p
      have h' := h
      simp only [togglesRapidos, Bool.and_eq_true] at h'
      have passo := verificarBotao_sem_commit st raw t h'.1
      have resto := ih (verificarBotao st raw t).1 h'.2
      refine ⟨?_, ?_⟩
      · simpa [executarBotao, passo.2] using resto.1
      · simp [executarBotao, passo.1, resto.2]

/-- Once the stable level equals the held raw level, further polls of
that level never report a change and never alter the stable level. -/
theorem executarBotao_apos_commit (r : Bool) (polls : List (Bool × Nat))
    (st : BotaoState) (hst : st.estavel = r) (hraw : ∀ p ∈ polls, p.1 = r) :
    (executarBotao st polls).1.estavel = r ∧
    (executarBotao st polls).2.count true = 0 := by
  induction polls generalizing st with
  | nil => simpa [executarBotao] using hst
  | cons p rest ih =>
      obtain ⟨raw, t⟩ := p
      have hr : raw = r := hraw (raw, t) (List.mem_cons_self _ _)
      have passo : (verificarBotao st raw t).2 = false ∧
          (verificarBotao st raw t).1.estavel = r := by
        simp [verificarBotao, hr, hst]
      have resto := ih (verificarBotao st raw t).1 passo.2
        (fun q hq => hraw q (List.mem_cons_of_mem _ hq))
      refine ⟨?_, ?_⟩
      · simpa [executarBotao] using resto.1
      · simp [executarBotao, passo.1, resto.2]

/-- A raw level opposite to the stable level, already recorded as the
last-read level and then held, commits exactly once: on the first poll
strictly outside the debounce window. -/
theorem executarBotao_commit_unico (r : Bool) (polls : List (Bool × Nat))
    (st : BotaoState) (hlido : st.lido = r) (hest : st.estavel ≠ r)
    (hraw : ∀ p ∈ polls, p.1 = r)
    (hheld : ∃ p ∈ polls, st.troca + tempoDebounce < p.2) :
    (executarBotao st polls).2.count true = 1 := by
  induction polls generalizing st with
  | nil => simp at hheld
  | cons p rest ih =>
      obtain ⟨raw, t⟩ := p
      have hr : raw = r := hraw (raw, t) (List.mem_cons_self _ _)
      subst hr
      have hdif : ¬ raw = st.estavel := fun hc => hest hc.symm
      by_cases hjanela : st.troca + tempoDebounce < t
      · have passo : (verificarBotao st raw t).2 = true ∧
            (verificarBotao st raw t).1.estavel = raw := by
          have hc : tempoDebounce < t - st.troca := by omega
          simp [verificarBotao, hlido, hc, hdif]
        have resto := executarBotao_apos_commit raw rest
          (verificarBotao st raw t).1 passo.2
          (fun q hq => hraw q (List.mem_cons_of_mem _ hq))
        simp [executarBotao, passo.1, resto.2]
      · have passo : verificarBotao st raw t = (st, false) := by
          have hc : ¬ tempoDebounce < t - st.troca := by omega
          simp [verificarBotao, hlido, hc]
          rw [← hlido]
        have hheld' : ∃ p ∈ rest, st.troca + tempoDebounce < p.2 := by
          obtain ⟨q, hq, hqt⟩ := hheld
          rcases List.mem_cons.mp hq with hq0 | hqr
          · exact absurd (by simpa [hq0] using hqt) hjanela
          · exact ⟨q, hqr, hqt⟩
        have resto := ih st hlido hest
          (fun q hq => hraw q (List.mem_cons_of_mem _ hq)) hheld'
        simp [executarBotao, passo, resto]

/-- Claim C9: within-window toggling never changes the stable level
and reports no change, while a raw level opposite to the stable level
held strictly longer than the window commits exactly once. -/
theorem verificarBotao_debounce :
    (∀ (st : BotaoState) (polls : List (Bool × Nat)),
        togglesRapidos st polls = true →
        (executarBotao st polls).1.estavel = st.estavel ∧
        (executarBotao st polls).2.count true = 0) ∧
    (∀ (r : Bool) (polls : List (Bool × Nat)) (st : BotaoState),
        st.lido = r → st.estavel ≠ r →
        (∀ p ∈ polls, p.1 = r) →
        (∃ p ∈ polls, st.troca + tempoDebounce < p.2) →
        (executarBotao st polls).2.count true = 1) :=
  ⟨fun st polls h => executarBotao_togglesRapidos polls st h,
   fun r polls st h1 h2 h3 h4 => executarBotao_commit_unico r polls st h1 h2 h3 h4⟩

/-- Witness for C9: a concrete burst of fresh toggles leaves a HIGH
stable level HIGH with no change reported, and a LOW level held past
the window from a HIGH stable level commits exactly once. -/
theorem verificarBotao_debounce_witness :
    ((executarBotao ⟨true, true, 0⟩
        [(false, 10), (true, 40), (false, 80)]).1.estavel = true ∧
     (executarBotao ⟨true, true, 0⟩
        [(false, 10), (true, 40), (false, 80)]).2.count true = 0) ∧
    (executarBotao ⟨true, false, 0⟩
        [(false, 30), (false, 60), (false, 70)]).2.count true = 1 :=
  ⟨verificarBotao_debounce.1 ⟨true, true, 0⟩
      [(false, 10), (true, 40), (false, 80)] (by decide),
   verificarBotao_debounce.2 false [(false, 30), (false, 60), (false, 70)]
      ⟨true, false, 0⟩ rfl (by decide) (by decide) (by decide)⟩

/-- Duration of the startup grace window claimed by the spec (the 2 s
the operator is told to hold the button). -/
def janelaGraca : Nat := 2000

/-- Startup check `autoCalibrarSeBotaoPressionado` (lines 159-163), called once at
the end of `setup`: it performs a single `digitalRead` of the mode
button at the instant `tCheck` the call happens and triggers
calibration exactly when that one read is LOW (`false`).  The button
input is a trace from time to pin level. -/
def gatilhoCalibracaoSetup (botaoNivel : Nat → Bool) (tCheck : Nat) : Bool :=
  botaoNivel tCheck == false

/-- Modelled from the spec: the trigger condition claimed in section
4.3 — the mode input held active (LOW) throughout the whole startup
grace window. -/
def seguradoDuranteJanela (botaoNivel : Nat → Bool) : Prop :=
  ∀ t, t ≤ janelaGraca → botaoNivel t = false

/-- Counterexample to claim C5: a button pressed only at the single
check instant 0 and released immediately after still triggers startup
calibration, although it is not held for the grace window; the code
reads the pin exactly once (the 2 s wait sits inside `autoCalibrar`,
after the decision). -/
theorem gatilhoCalibracaoSetup_contraexemplo :
    gatilhoCalibracaoSetup (fun t => decide (t ≠ 0)) 0 = true ∧
    ¬ seguradoDuranteJanela (fun t => decide (t ≠ 0)) := by
  constructor
  · rfl
  · intro h
    have h1 := h 1 (by norm_num [janelaGraca])
    simp at h1

/-- Claim C5 as amended: startup calibration runs exactly when the
mode input reads active at the single check instant; holding it
throughout the grace window is sufficient whenever the check falls
inside the window, but not necessary. -/
theorem gatilhoCalibracaoSetup_leitura_unica
    (botaoNivel : Nat → Bool) (tCheck : Nat) :
    (gatilhoCalibracaoSetup botaoNivel tCheck = true ↔
      botaoNivel tCheck = false) ∧
    (tCheck ≤ janelaGraca → seguradoDuranteJanela botaoNivel →
      gatilhoCalibracaoSetup botaoNivel tCheck = true) := by
  constructor
  · simp [gatilhoCalibracaoSetup]
  · intro h1 h2
    simp [gatilhoCalibracaoSetup, h2 tCheck h1]

/-- Witness for the amended C5: a button held LOW the whole time
triggers calibration at check instant 0. -/
theorem gatilhoCalibracaoSetup_leitura_unica_witness :
    gatilhoCalibracaoSetup (fun _ => false) 0 = true :=
  (gatilhoCalibracaoSetup_leitura_unica (fun _ => false) 0).2
    (by norm_num [janelaGraca]) (fun _ _ => rfl)

/-- Per-iteration inputs of `loop`: the raw levels of the two buttons,
the `millis()` timestamp, the averaged measurements `autoCalibrar`
would obtain if it runs, and the raw RMS readings the control cycle
would obtain if it runs. -/
structure Entradas where
  nivelBotao : Bool
  nivelCalib : Bool
  agora : Nat
  calibMin : ℚ
  calibMax : ℚ
  rmsMin : ℚ
  rmsMax : ℚ
deriving DecidableEq

/-- The mutable globals the main loop reads and writes. -/
structure LoopState where
  modoAutomatico : Bool
  bombaLigada : Bool
  estadoAtual : EstadoPoco
  estadoAnterior : EstadoPoco
  filtroVmin : ℚ
  filtroVmax : ℚ
  ganhoMin : ℚ
  ganhoMax : ℚ
  botaoModo : BotaoState
  botaoCalib : BotaoState
  ultimaLeitura : Nat
deriving DecidableEq

/-- The mode-toggle block at the head of `loop` (lines 362-372): on a
debounced press of the mode button, flip `modoAutomatico`; when the
flip turns the mode off, also call `desligarBomba`. -/
def passoModo (st : LoopState) (e : Entradas) : LoopState :=
  let vb := verificarBotao st.botaoModo e.nivelBotao e.agora
  let st1 := { st with botaoModo := vb.1 }
  if vb.2 = true ∧ vb.1.estavel = false then
    if !st1.modoAutomatico then
      { st1 with modoAutomatico := !st1.modoAutomatico }
    else
      { st1 with
          modoAutomatico := !st1.modoAutomatico
          bombaLigada := false }
  else st1

/-- The manual-calibration block of `loop` (lines 375-377): on a
debounced press of the calibration button, run `autoCalibrar`.
Returns the updated state and whether calibration ran. -/
def passoCalib (st : LoopState) (e : Entradas) : LoopState × Bool :=
  let vc := verificarBotao st.botaoCalib e.nivelCalib e.agora
  let st3 := { st with botaoCalib := vc.1 }
  if vc.2 = true ∧ vc.1.estavel = false then
    let g := autoCalibrar st3.ganhoMin st3.ganhoMax e.calibMin e.calibMax
    ({ st3 with
        ganhoMin := g.1
        ganhoMax := g.2 }, true)
  else
    (st3, false)

/-- Both button blocks in order, as `loop` executes them. -/
def passoBotoes (st : LoopState) (e : Entradas) : LoopState × Bool :=
  passoCalib (passoModo st e) e

/-- Result of one `loop` iteration: the new globals, whether manual
calibration ran (acquiring sensor readings), and whether the
cadence-gated control cycle ran (acquiring sensor readings, stepping
the state machine and driving the pump). -/
structure SaidaLoop where
  estado : LoopState
  calibrou : Bool
  ciclo : Bool
deriving DecidableEq

/-- One iteration of `loop` (lines 361-391): the two button blocks,
then — only when the mode is on and the 300-unit cadence elapsed
(`tempoDecorrido`, lines 96-103) — filtered acquisition on both
channels, `atualizarEstado` on the wetness classification against
`LIMITE_MOLHADO`, and `controlarBomba`. -/
def loopBody (st : LoopState) (e : Entradas) : SaidaLoop :=
  let pb := passoBotoes st e
  let st4 := pb.1
  if st4.modoAutomatico = true ∧ 300 ≤ e.agora - st4.ultimaLeitura then
    let tensaoMin := filtroExp (e.rmsMin * st4.ganhoMin) st4.filtroVmin
    let tensaoMax := filtroExp (e.rmsMax * st4.ganhoMax) st4.filtroVmax
    let novo := atualizarEstado st4.estadoAtual
        (decide (tensaoMin ≤ LIMITE_MOLHADO)) (decide (tensaoMax ≤ LIMITE_MOLHADO))
    ⟨{ st4 with
        ultimaLeitura := e.agora
        filtroVmin := tensaoMin
        filtroVmax := tensaoMax
        estadoAnterior := st4.estadoAtual
        estadoAtual := novo
        bombaLigada := controlarBomba novo st4.bombaLigada }, pb.2, true⟩
  else
    ⟨st4, pb.2, false⟩

/-- Sensor acquisition happens in an iteration exactly when manual
calibration ran or the control cycle ran. -/
def houveAquisicao (s : SaidaLoop) : Bool :=
  s.calibrou || s.ciclo

/-- The mode-toggle block never touches the well state, the filters,
the gains or the cadence clock. -/
theorem passoModo_quadro (st : LoopState) (e : Entradas) :
    (passoModo st e).estadoAtual = st.estadoAtual ∧
    (passoModo st e).filtroVmin = st.filtroVmin ∧
    (passoModo st e).filtroVmax = st.filtroVmax ∧
    (passoModo st e).ultimaLeitura = st.ultimaLeitura := by
  by_cases h1 : (verificarBotao st.botaoModo e.nivelBotao e.agora).2 = true ∧
      (verificarBotao st.botaoModo e.nivelBotao e.agora).1.estavel = false <;>
    cases hm : st.modoAutomatico <;> simp [passoModo, h1, hm]

/-- If the mode is off after the toggle block, then either it was
already off and the pump flag is untouched, or this very iteration
toggled it off and the pump flag was forced off. -/
theorem passoModo_bomba (st : LoopState) (e : Entradas)
    (h : (passoModo st e).modoAutomatico = false) :
    (st.modoAutomatico = true ∧ (passoModo st e).bombaLigada = false) ∨
    (st.modoAutomatico = false ∧ (passoModo st e).bombaLigada = st.bombaLigada) := by
  by_cases h1 : (verificarBotao st.botaoModo e.nivelBotao e.agora).2 = true ∧
      (verificarBotao st.botaoModo e.nivelBotao e.agora).1.estavel = false
  · cases hm : st.modoAutomatico
    · simp [passoModo, h1, hm] at h
    · refine Or.inl ⟨rfl, ?_⟩
      simp [passoModo, h1, hm]
  · cases hm : st.modoAutomatico
    · refine Or.inr ⟨rfl, ?_⟩
      simp [passoModo, h1]
    · simp [passoModo, h1, hm] at h

/-- The calibration block touches only the gains and its button
state. -/
theorem passoCalib_quadro (st : LoopState) (e : Entradas) :
    (passoCalib st e).1.modoAutomatico = st.modoAutomatico ∧
    (passoCalib st e).1.bombaLigada = st.bombaLigada ∧
    (passoCalib st e).1.estadoAtual = st.estadoAtual ∧
    (passoCalib st e).1.filtroVmin = st.filtroVmin ∧
    (passoCalib st e).1.filtroVmax = st.filtroVmax ∧
    (passoCalib st e).1.ultimaLeitura = st.ultimaLeitura := by
  by_cases h3 : (verificarBotao st.botaoCalib e.nivelCalib e.agora).2 = true ∧
      (verificarBotao st.botaoCalib e.nivelCalib e.agora).1.estavel = false <;>
    simp [passoCalib, h3]

/-- The button blocks never touch the well state, the filters or the
cadence clock. -/
theorem passoBotoes_quadro (st : LoopState) (e : Entradas) :
    (passoBotoes st e).1.estadoAtual = st.estadoAtual ∧
    (passoBotoes st e).1.filtroVmin = st.filtroVmin ∧
    (passoBotoes st e).1.filtroVmax = st.filtroVmax ∧
    (passoBotoes st e).1.ultimaLeitura = st.ultimaLeitura := by
  have hm := passoModo_quadro st e
  have hc := passoCalib_quadro (passoModo st e) e
  exact ⟨hc.2.2.1.trans hm.1, hc.2.2.2.1.trans hm.2.1,
    hc.2.2.2.2.1.trans hm.2.2.1, hc.2.2.2.2.2.trans hm.2.2.2⟩

/-- If the mode is off after both button blocks, the pump flag is
untouched unless this iteration toggled the mode off, in which case it
is forced off. -/
theorem passoBotoes_bomba (st : LoopState) (e : Entradas)
    (h : (passoBotoes st e).1.modoAutomatico = false) :
    (st.modoAutomatico = true ∧ (passoBotoes st e).1.bombaLigada = false) ∨
    (st.modoAutomatico = false ∧
      (passoBotoes st e).1.bombaLigada = st.bombaLigada) := by
  have hcq := passoCalib_quadro (passoModo st e) e
  have hmodo : (passoModo st e).modoAutomatico = false := by
    rw [← hcq.1]
    exact h
  rcases passoModo_bomba st e hmodo with ⟨ha, hb⟩ | ⟨ha, hb⟩
  · exact Or.inl ⟨ha, hcq.2.1.trans hb⟩
  · exact Or.inr ⟨ha, hcq.2.1.trans hb⟩

/-- Claim C10 as amended: an iteration that ends with the mode off
leaves the well state and both filters unchanged, runs no control
cycle, and changes the pump flag only by forcing it off when the
iteration itself toggled the mode off; the control cycle runs only
with the mode on.  (Manual calibration may still acquire sensor
readings with the mode off, touching only the gains — see the
counterexample to the claim as stated.) -/
theorem loopBody_modo_inativo (st : LoopState) (e : Entradas) :
    ((loopBody st e).estado.modoAutomatico = false →
      (loopBody st e).estado.estadoAtual = st.estadoAtual ∧
      (loopBody st e).estado.filtroVmin = st.filtroVmin ∧
      (loopBody st e).estado.filtroVmax = st.filtroVmax ∧
      (loopBody st e).ciclo = false ∧
      ((st.modoAutomatico = true ∧ (loopBody st e).estado.bombaLigada = false) ∨
       (st.modoAutomatico = false ∧
         (loopBody st e).estado.bombaLigada = st.bombaLigada))) ∧
    ((loopBody st e).ciclo = true →
      (loopBody st e).estado.modoAutomatico = true) := by
  have hquadro := passoBotoes_quadro st e
  by_cases hc : (passoBotoes st e).1.modoAutomatico = true ∧
      300 ≤ e.agora - (passoBotoes st e).1.ultimaLeitura
  · constructor
    · intro hmodo
      exfalso
      simp only [loopBody, if_pos hc] at hmodo
      rw [hc.1] at hmodo
      exact absurd hmodo (by decide)
    · intro _
      simp only [loopBody, if_pos hc]
      exact hc.1
  · have hres : loopBody st e = ⟨(passoBotoes st e).1, (passoBotoes st e).2, false⟩ := by
      simp only [loopBody, if_neg hc]
    rw [hres]
    constructor
    · intro hmodo
      exact ⟨hquadro.1, hquadro.2.1, hquadro.2.2.1, rfl,
        passoBotoes_bomba st e hmodo⟩
    · intro hciclo
      exact Bool.noConfusion hciclo

/-- Witness for the amended C10: with the mode off, no button event
and no elapsed cadence, an iteration changes nothing. -/
theorem loopBody_modo_inativo_witness :
    (loopBody
        ⟨false, false, POCO_VAZIO, POCO_VAZIO, 0, 0, 1, 1,
          ⟨true, true, 0⟩, ⟨true, true, 0⟩, 0⟩
        ⟨true, true, 10, 1, 1, 0, 0⟩).estado.estadoAtual = POCO_VAZIO :=
  ((loopBody_modo_inativo
      ⟨false, false, POCO_VAZIO, POCO_VAZIO, 0, 0, 1, 1,
        ⟨true, true, 0⟩, ⟨true, true, 0⟩, 0⟩
      ⟨true, true, 10, 1, 1, 0, 0⟩).1 (by decide)).1

/-- Counterexample to claim C10 as stated: with the mode off, a
debounced press of the calibration button makes the iteration acquire
sensor readings (manual calibration), so sensor acquisition is not
restricted to iterations with the automatic mode active. -/
theorem loopBody_aquisicao_modo_inativo :
    (loopBody
        ⟨false, false, POCO_VAZIO, POCO_VAZIO, 0, 0, 1, 1,
          ⟨true, true, 0⟩, ⟨true, false, 0⟩, 0⟩
        ⟨true, false, 100, 1, 1, 0, 0⟩).estado.modoAutomatico = false ∧
    houveAquisicao
      (loopBody
        ⟨false, false, POCO_VAZIO, POCO_VAZIO, 0, 0, 1, 1,
          ⟨true, true, 0⟩, ⟨true, false, 0⟩, 0⟩
        ⟨true, false, 100, 1, 1, 0, 0⟩) = true := by
  decide

end ControlePoco
